import Mathlib

/-!
Verification development for the webhook ingress gateway
(src/api/webhook.py, src/api/webhook_tgms.py, src/api/webhook_swap.py).

The Python handlers are shallowly embedded: JSON bodies become the `Json`
inductive, the process environment becomes the read-only `Env` record, the
durable store becomes an explicit `List Job` threaded through each handler,
and fallible store operations are driven by a `DbOutcome` oracle telling
which of connection acquisition, row insertion and commit succeed.
Python attribute errors raised by calling `.get` on a non-dict value are
modelled with `Except Unit`: each handler catches them exactly where the
source has a matching `except` block.
-/

namespace IgLive

/-- JSON values as produced by Flask request parsing (json.loads output).
An `obj` models a Python dict, so its key list is assumed duplicate free. -/
inductive Json where
  | null
  | bool (b : Bool)
  | num (n : Int)
  | str (s : String)
  | arr (elems : List Json)
  | obj (fields : List (String × Json))

/-- Python truthiness of a parsed JSON value, used by checks such as
the source line if not update_data. -/
def Json.truthy : Json → Bool
  | .null => false
  | .bool b => b
  | .num n => n != 0
  | .str s => s != ""
  | .arr xs => !xs.isEmpty
  | .obj fs => !fs.isEmpty

/-- First-match lookup in a dict's field list (Python dict indexing). -/
def lookupKey (k : String) : List (String × Json) → Option Json
  | [] => none
  | (k', v) :: rest => if k' == k then some v else lookupKey k rest

/-- Python membership test on a dict: key present. Non-dict values give
`false` here; callers that can receive non-dicts use `pyContains`. -/
def Json.hasKey (j : Json) (k : String) : Bool :=
  match j with
  | .obj fs => (lookupKey k fs).isSome
  | _ => false

/-- Value of a key known (or defaulted) on a dict, Python `d[k]` after an
`in` test succeeded; `.null` is never returned on the paths that use it. -/
def Json.idx (j : Json) (k : String) : Json :=
  match j with
  | .obj fs => (lookupKey k fs).getD .null
  | _ => .null

/-- Python `d.get(k, default)`: raises AttributeError (`Except.error`) when
the receiver is not a dict. -/
def Json.getD (j : Json) (k : String) (d : Json) : Except Unit Json :=
  match j with
  | .obj fs => .ok ((lookupKey k fs).getD d)
  | _ => .error ()

/-- Python `d.get(k)` returning `None` when absent: raises AttributeError
(`Except.error`) when the receiver is not a dict. -/
def Json.getOpt (j : Json) (k : String) : Except Unit (Option Json) :=
  match j with
  | .obj fs => .ok (lookupKey k fs)
  | _ => .error ()

/-- Substring test used by Python `needle in haystack` on strings. -/
def substrCheck (needle hay : String) : Bool :=
  (hay.splitOn needle).length ≥ 2

/-- Python `'k' in x` for an arbitrary parsed value: key membership on
dicts, element membership on lists, substring test on strings, TypeError
(`Except.error`) on numbers, booleans and null. -/
def pyContains (k : String) : Json → Except Unit Bool
  | .obj fs => .ok (lookupKey k fs).isSome
  | .arr xs => .ok (xs.any fun x => match x with | .str s => s == k | _ => false)
  | .str s => .ok (substrCheck k s)
  | _ => .error ()

/-- Python test `new_status in ('administrator', 'creator')` applied to
the extracted status value (`none` models Python None from a missing
key): true exactly for the two admin strings. -/
def statusIsAdmin (s : Option Json) : Bool :=
  match s with
  | some (.str t) => t == "administrator" || t == "creator"
  | _ => false

/-- Durable job row, matching the insert column list of the source:
INSERT INTO jobs (job_type, bot_token, payload, status, created_at,
updated_at). -/
structure Job where
  job_type : String
  bot_token : String
  payload : Json
  status : String
  created_at : Nat
  updated_at : Nat

/-- Row built by every enqueue site: status 'pending', both timestamps set
to the current time, payload the raw body. -/
def mkJob (jt tok : String) (payload : Json) (now : Nat) : Job :=
  ⟨jt, tok, payload, "pending", now, now⟩

/-- Process-wide configuration read from the environment at start-up.
Token fields hold the empty string when the variable is unset or empty
(matching Python truthiness of os.environ.get). `engine` is whether the
SQLAlchemy engine object was created; `dbCheckedIn` is the result of the
health check's engine.pool.checkedin() > 0 probe. -/
structure Env where
  engine : Bool
  dbCheckedIn : Bool
  botToken : String
  tgmsToken : String
  adminKey : String
  databaseUrl : Bool
  swapToken : String

/-- Overall boolean of webhook.py's get_health_status: every named check
(database, bot_token, tgms_token, admin_key, database_url) must pass. -/
def health_ok (env : Env) : Bool :=
  (env.engine && env.dbCheckedIn) && (env.botToken != "") &&
    (env.tgmsToken != "") && (env.adminKey != "") && env.databaseUrl

/-- Outcome oracle for the three fallible store operations of one request:
engine.connect(), the INSERT statement, and the transaction commit. -/
structure DbOutcome where
  connectOk : Bool
  insertOk : Bool
  commitOk : Bool

/-- Outbound call attempted by the immediate-response side channel. -/
inductive RespAction where
  | ackCallback (id : Json)
  | typingAction (chatId : Json)

/-- Chat id extraction `m.get('chat', {}).get('id')` shared by the
responder branches. -/
def getChatId (m : Json) : Except Unit (Option Json) := do
  let c ← m.getD "chat" (.obj [])
  c.getOpt "id"

/-- Embedding of webhook.py `_send_immediate_response` for the main bot:
returns the list of outbound calls actually attempted. `net n` is whether
the n-th outbound call in program order succeeds; an exception from a
failed call (or an AttributeError in a chain) aborts the remaining calls,
and the surrounding try/except swallows everything. -/
def send_immediate_response (botToken : String) (j : Json) (net : Nat → Bool) :
    List RespAction :=
  if botToken == "" then []
  else if j.hasKey "callback_query" then
    match j.idx "callback_query" with
    | .obj cq =>
      let cqj : Json := .obj cq
      let oid := lookupKey "id" cq
      let chatPart : List RespAction :=
        match (do getChatId (← cqj.getD "message" (.obj []))) with
        | .ok (some cid) => if cid.truthy then [.typingAction cid] else []
        | _ => []
      match oid with
      | some idv =>
        if idv.truthy then
          if net 0 then .ackCallback idv :: chatPart else [.ackCallback idv]
        else chatPart
      | none => chatPart
    | _ => []
  else if j.hasKey "message" then
    match j.idx "message" with
    | .obj mf =>
      match getChatId (.obj mf) with
      | .ok (some cid) => if cid.truthy then [.typingAction cid] else []
      | _ => []
    | _ => []
  else []

/-- Result of one request to the main gateway (webhook.py): the HTTP
status code, the message field of the JSON response body, the durable
store after the request, the outbound calls attempted by the immediate
responder, and whether a storage transaction was begun. -/
structure WebhookResult where
  status : Nat
  msg : String
  store : List Job
  actions : List RespAction
  txnBegun : Bool

/-- Job-type decision of webhook.py `_handle_tgms_update` (lines 260 to
269): my_chat_member rule first, then chat_join_request, else generic;
an AttributeError raised by the nested `.get` chain on a non-dict value
is an `Except.error` that the caller maps to a 500. -/
def classify_main_tgms (j : Json) : Except Unit String :=
  if j.hasKey "my_chat_member" then do
    let w ← (j.idx "my_chat_member").getD "new_chat_member" (.obj [])
    let s ← w.getOpt "status"
    pure (if statusIsAdmin s then "tgms_register_group"
          else "tgms_process_update")
  else if j.hasKey "chat_join_request" then pure "tgms_process_join_request"
  else pure "tgms_process_update"

/-- Embedding of webhook.py `_handle_main_update`: read update_id (an
AttributeError on a non-dict body escapes to the outer handler as a 500),
dispatch the immediate responder, then connect, begin a transaction,
pick the job type and credential inside it, insert and commit. Every
failure after begin rolls the transaction back, leaving the store
unchanged, and is reported as a 500. -/
def handle_main_update (env : Env) (j : Json) (db : DbOutcome)
    (net : Nat → Bool) (now : Nat) (store : List Job) : WebhookResult :=
  match j.getOpt "update_id" with
  | .error _ => ⟨500, "Internal processing error", store, [], false⟩
  | .ok _ =>
    let acts := send_immediate_response env.botToken j net
    if !db.connectOk then ⟨500, "Failed to queue job", store, acts, false⟩
    else
      let isJoin := j.hasKey "chat_join_request"
      let jobType := if isJoin then "tgms_process_join_request"
                     else "process_telegram_update"
      let token := if isJoin then env.tgmsToken else env.botToken
      if token == "" then ⟨500, "Failed to queue job", store, acts, true⟩
      else if !db.insertOk then ⟨500, "Failed to queue job", store, acts, true⟩
      else if !db.commitOk then ⟨500, "Failed to queue job", store, acts, true⟩
      else ⟨200, "Webhook received and queued",
            store ++ [mkJob jobType token j now], acts, true⟩

/-- Embedding of webhook.py `_handle_tgms_update`: read update_id, then
connect, begin a transaction, classify inside it, check the TGMS token
inside it, insert and commit; failures after begin roll back. -/
def handle_tgms_update (env : Env) (j : Json) (db : DbOutcome)
    (now : Nat) (store : List Job) : WebhookResult :=
  match j.getOpt "update_id" with
  | .error _ => ⟨500, "Internal processing error", store, [], false⟩
  | .ok _ =>
    if !db.connectOk then ⟨500, "Failed to queue TGMS job", store, [], false⟩
    else
      match classify_main_tgms j with
      | .error _ => ⟨500, "Failed to queue TGMS job", store, [], true⟩
      | .ok jobType =>
        if env.tgmsToken == "" then
          ⟨500, "Failed to queue TGMS job", store, [], true⟩
        else if !db.insertOk then
          ⟨500, "Failed to queue TGMS job", store, [], true⟩
        else if !db.commitOk then
          ⟨500, "Failed to queue TGMS job", store, [], true⟩
        else ⟨200, "TGMS webhook received",
              store ++ [mkJob jobType env.tgmsToken j now], [], true⟩

/-- Embedding of webhook.py `handle_webhook`: health gate, engine check,
body validation (`not update_data or 'update_id' not in update_data`,
with a TypeError from the membership test caught as a 400), then routing
by path. `body = none` models a request whose JSON could not be parsed. -/
def handle_webhook (env : Env) (tgmsPath : Bool) (body : Option Json)
    (db : DbOutcome) (net : Nat → Bool) (now : Nat) (store : List Job) :
    WebhookResult :=
  if !health_ok env then
    ⟨503, "Service temporarily unavailable", store, [], false⟩
  else if !env.engine then ⟨500, "Database connection failed", store, [], false⟩
  else
    match body with
    | none => ⟨400, "Bad request", store, [], false⟩
    | some j =>
      if !j.truthy then ⟨400, "Invalid payload", store, [], false⟩
      else
        match pyContains "update_id" j with
        | .error _ => ⟨400, "Bad request", store, [], false⟩
        | .ok false => ⟨400, "Invalid payload", store, [], false⟩
        | .ok true =>
          if tgmsPath then handle_tgms_update env j db now store
          else handle_main_update env j db net now store

/-- Result of one POST to the standalone TGMS gateway
(webhook_tgms.py): status code, store after the request, the chat id the
typing side channel was dispatched for (none when it was not), and
whether a storage transaction was begun. -/
structure TgmsResult where
  status : Nat
  store : List Job
  typing : Option Json
  txnBegun : Bool

/-- Classification of webhook_tgms.py lines 96 to 114: ordered rules
my_chat_member, chat_join_request, message, else; each branch also
extracts the nested chat id. Returns the job type and the raw chat id
value; `Except.error` models an AttributeError from a `.get` chain. -/
def classifyTgms (j : Json) : Except Unit (String × Option Json) :=
  if j.hasKey "my_chat_member" then do
    let v := j.idx "my_chat_member"
    let w ← v.getD "new_chat_member" (.obj [])
    let s ← w.getOpt "status"
    let jt := if statusIsAdmin s then "tgms_register_group"
              else "tgms_process_update"
    let cid ← getChatId v
    pure (jt, cid)
  else if j.hasKey "chat_join_request" then do
    let cid ← getChatId (j.idx "chat_join_request")
    pure ("tgms_process_join_request", cid)
  else if j.hasKey "message" then do
    let cid ← getChatId (j.idx "message")
    pure ("tgms_process_update", cid)
  else pure ("tgms_process_update", none)

/-- Embedding of webhook_tgms.py `webhook_tgms` (POST branch): engine
gate (503), parse (a parse failure raises inside the handler try and is
reported as 500), truthiness check (400), update_id read (AttributeError
on non-dict gives 500), TGMS token check before any transaction (500),
classification, typing dispatch for a truthy chat id, then the insert
inside a fresh transaction. -/
def webhook_tgms (env : Env) (body : Option Json) (db : DbOutcome)
    (now : Nat) (store : List Job) : TgmsResult :=
  if !env.engine then ⟨503, store, none, false⟩
  else
    match body with
    | none => ⟨500, store, none, false⟩
    | some j =>
      if !j.truthy then ⟨400, store, none, false⟩
      else
        match j.getOpt "update_id" with
        | .error _ => ⟨500, store, none, false⟩
        | .ok _ =>
          if env.tgmsToken == "" then ⟨500, store, none, false⟩
          else
            match classifyTgms j with
            | .error _ => ⟨500, store, none, false⟩
            | .ok (jobType, chatId) =>
              let typ : Option Json :=
                match chatId with
                | some c => if c.truthy then some c else none
                | none => none
              if !db.connectOk then ⟨500, store, typ, false⟩
              else if !db.insertOk then ⟨500, store, typ, true⟩
              else if !db.commitOk then ⟨500, store, typ, true⟩
              else ⟨200, store ++ [mkJob jobType env.tgmsToken j now],
                    typ, true⟩

/-- Result of one POST to the swap gateway (webhook_swap.py). -/
structure SwapResult where
  status : Nat
  store : List Job

/-- Embedding of webhook_swap.py `webhook_swap` (POST branch): engine
gate (503), parse failure 500, truthiness check (400), update_id read
(AttributeError on non-dict gives 500), then an unconditional insert of
one process_telegram_update job carrying SWAP_BOT_TOKEN. -/
def webhook_swap (env : Env) (body : Option Json) (db : DbOutcome)
    (now : Nat) (store : List Job) : SwapResult :=
  if !env.engine then ⟨503, store⟩
  else
    match body with
    | none => ⟨500, store⟩
    | some j =>
      if !j.truthy then ⟨400, store⟩
      else
        match j.getOpt "update_id" with
        | .error _ => ⟨500, store⟩
        | .ok _ =>
          if !db.connectOk then ⟨500, store⟩
          else if !db.insertOk then ⟨500, store⟩
          else if !db.commitOk then ⟨500, store⟩
          else ⟨200, store ++ [mkJob "process_telegram_update"
                                env.swapToken j now]⟩

/-- Attempt times of the typing loop in webhook_tgms.py
`send_typing_action`: starting at elapsed time 0, while the elapsed time
is below `duration` the loop posts one sendChatAction call; a failed post
breaks out of the loop after that attempt; a successful one advances the
elapsed time by the call latency `lat k` plus the fixed 4-unit sleep.
`k` numbers the attempts for the `ok` and `lat` oracles. -/
def typingLoop (duration : Nat) (lat : Nat → Nat) (ok : Nat → Bool)
    (elapsed k : Nat) : List Nat :=
  if elapsed < duration then
    if ok k then
      elapsed :: typingLoop duration lat ok (elapsed + lat k + 4) (k + 1)
    else [elapsed]
  else []
termination_by duration - elapsed
decreasing_by omega

/-- Embedding of webhook_tgms.py `send_typing_action`: no attempt is made
when httpx failed to import, the token is empty or the chat id is falsy;
otherwise the detached thread runs the typing loop. The result is the
list of attempt times. -/
def send_typing_action (httpxOk : Bool) (botToken : String) (chatId : Json)
    (duration : Nat) (lat : Nat → Nat) (ok : Nat → Bool) : List Nat :=
  if !httpxOk || botToken == "" || !chatId.truthy then []
  else typingLoop duration lat ok 0 0

/-! ## Helper lemmas -/

theorem typingLoop_length_le (d : Nat) (lat : Nat → Nat) (ok : Nat → Bool) :
    ∀ e k, (typingLoop d lat ok e k).length ≤ (d - e + 3) / 4 := by
  intro e k
  induction e, k using typingLoop.induct d lat ok with
  | case1 e k he hok ih =>
    rw [typingLoop]
    simp only [he, if_true, hok, List.length_cons]
    have hl : 0 ≤ lat k := Nat.zero_le _
    omega
  | case2 e k he hok =>
    rw [typingLoop]
    simp [he, hok]
    omega
  | case3 e k he =>
    rw [typingLoop]
    simp [he]

theorem typingLoop_chain (d : Nat) (lat : Nat → Nat) (ok : Nat → Bool) :
    ∀ e k, List.Chain' (fun a b => a + 4 ≤ b) (typingLoop d lat ok e k) := by
  intro e k
  induction e, k using typingLoop.induct d lat ok with
  | case1 e k he hok ih =>
    rw [typingLoop]
    simp only [he, if_true, hok]
    rw [List.chain'_cons']
    refine ⟨?_, ih⟩
    intro b hb
    rw [typingLoop] at hb
    by_cases he2 : e + lat k + 4 < d
    · simp only [he2, if_true] at hb
      by_cases hok2 : ok (k+1) <;> simp [hok2] at hb <;> omega
    · simp [he2] at hb
  | case2 e k he hok =>
    rw [typingLoop]
    simp [he, hok]
  | case3 e k he =>
    rw [typingLoop]
    simp [he]

theorem typingLoop_mem_lt (d : Nat) (lat : Nat → Nat) (ok : Nat → Bool) :
    ∀ e k, ∀ t ∈ typingLoop d lat ok e k, t < d := by
  intro e k
  induction e, k using typingLoop.induct d lat ok with
  | case1 e k he hok ih =>
    rw [typingLoop]
    simp only [he, if_true, hok]
    intro t ht
    rcases List.mem_cons.mp ht with h | h
    · omega
    · exact ih t h
  | case2 e k he hok =>
    rw [typingLoop]
    simp [he, hok]
  | case3 e k he =>
    rw [typingLoop]
    simp [he]

theorem typingLoop_early_stop (d : Nat) (lat : Nat → Nat) (ok : Nat → Bool) :
    ∀ e k j, k ≤ j → ok j = false →
      (typingLoop d lat ok e k).length ≤ j + 1 - k := by
  intro e k
  induction e, k using typingLoop.induct d lat ok with
  | case1 e k he hok ih =>
    intro j hkj hj
    rw [typingLoop]
    simp only [he, if_true, hok, List.length_cons]
    have hkj2 : k + 1 ≤ j := by
      rcases Nat.eq_or_lt_of_le hkj with h | h
      · subst h; rw [hok] at hj; cases hj
      · omega
    have := ih j hkj2 hj
    omega
  | case2 e k he hok =>
    intro j hkj hj
    rw [typingLoop]
    simp [he, hok]
    omega
  | case3 e k he =>
    intro j hkj hj
    rw [typingLoop]
    simp [he]

theorem classifyTgms_member (fs : List (String × Json)) (v w : Json)
    (s cid : Option Json)
    (hv : lookupKey "my_chat_member" fs = some v)
    (hw : v.getD "new_chat_member" (.obj []) = .ok w)
    (hs : w.getOpt "status" = .ok s)
    (hc : getChatId v = .ok cid) :
    classifyTgms (.obj fs) =
      .ok (if statusIsAdmin s then "tgms_register_group"
           else "tgms_process_update", cid) ∧
    classify_main_tgms (.obj fs) =
      .ok (if statusIsAdmin s then "tgms_register_group"
           else "tgms_process_update") := by
  have hk : (Json.obj fs).hasKey "my_chat_member" = true := by
    simp [Json.hasKey, hv]
  have hidx : (Json.obj fs).idx "my_chat_member" = v := by
    simp [Json.idx, hv]
  constructor
  · rw [classifyTgms]
    rw [hk]
    simp only [if_true, hidx, hw, hs, hc, bind, Except.bind]
    rfl
  · rw [classify_main_tgms]
    rw [hk]
    simp only [if_true, hidx, hw, hs, bind, Except.bind]
    rfl

theorem classifyTgms_join (fs : List (String × Json)) (v : Json)
    (cid : Option Json)
    (hnk : (Json.obj fs).hasKey "my_chat_member" = false)
    (hv : lookupKey "chat_join_request" fs = some v)
    (hc : getChatId v = .ok cid) :
    classifyTgms (.obj fs) = .ok ("tgms_process_join_request", cid) := by
  have hk : (Json.obj fs).hasKey "chat_join_request" = true := by
    simp [Json.hasKey, hv]
  have hidx : (Json.obj fs).idx "chat_join_request" = v := by
    simp [Json.idx, hv]
  rw [classifyTgms]
  rw [hnk, hk]
  simp only [if_true, if_false, Bool.false_eq_true, hidx, hc, bind,
    Except.bind]
  rfl

theorem lookupKey_ne_nil {k : String} {fs : List (String × Json)} {v : Json}
    (h : lookupKey k fs = some v) : fs ≠ [] := by
  intro hnil
  subst hnil
  simp [lookupKey] at h

theorem webhook_tgms_typing (env : Env) (fs : List (String × Json))
    (db : DbOutcome) (now : Nat) (store : List Job) (jt : String)
    (cid : Json)
    (he : env.engine = true) (ht : (env.tgmsToken == "") = false)
    (hfs : fs ≠ [])
    (hcl : classifyTgms (.obj fs) = .ok (jt, some cid))
    (hcid : cid.truthy = true) :
    (webhook_tgms env (some (.obj fs)) db now store).typing = some cid := by
  have hg : (Json.obj fs).truthy = true := by simp [Json.truthy, hfs]
  rcases db with ⟨c, i, k⟩
  cases c <;> cases i <;> cases k <;>
  simp [webhook_tgms, he, hg, ht, hcl, hcid, Json.getOpt]

theorem webhook_tgms_no_token (env : Env) (body : Option Json)
    (db : DbOutcome) (now : Nat) (store : List Job)
    (h : env.tgmsToken = "") :
    (webhook_tgms env body db now store).txnBegun = false ∧
    (webhook_tgms env body db now store).store = store ∧
    (webhook_tgms env body db now store).typing = none := by
  have ht : (env.tgmsToken == "") = true := by simp [h]
  cases he : env.engine
  · simp [webhook_tgms, he]
  · cases body with
    | none => simp [webhook_tgms, he]
    | some j =>
      cases hg : j.truthy
      · simp [webhook_tgms, he, hg]
      · cases hjo : j.getOpt "update_id" with
        | error e => simp [webhook_tgms, he, hg, hjo]
        | ok o => simp [webhook_tgms, he, hg, hjo, ht]

/-! ## Claim theorems -/

/-- C2: for every well-formed body containing a my_chat_member marker
(regardless of which other markers are also present — the membership rule
is checked first, so it wins every tie), classification on the TGMS
gateway (webhook_tgms.py) yields tgms_register_group exactly when the
nested new_chat_member status is the string administrator or creator, and
tgms_process_update for every other status value; the job-type decision of
webhook.py `_handle_tgms_update` agrees. -/
theorem claim_C2 (fs : List (String × Json)) (v w : Json)
    (s cid : Option Json)
    (hv : lookupKey "my_chat_member" fs = some v)
    (hw : v.getD "new_chat_member" (.obj []) = .ok w)
    (hs : w.getOpt "status" = .ok s)
    (hc : getChatId v = .ok cid) :
    classifyTgms (.obj fs) =
      .ok (if statusIsAdmin s then "tgms_register_group"
           else "tgms_process_update", cid) ∧
    classify_main_tgms (.obj fs) =
      .ok (if statusIsAdmin s then "tgms_register_group"
           else "tgms_process_update") :=
  classifyTgms_member fs v w s cid hv hw hs hc

/-- C2 witness: a body carrying a my_chat_member marker with status
creator together with chat_join_request and message markers classifies as
tgms_register_group on both classifiers — the membership rule wins. -/
theorem claim_C2_witness :
    classifyTgms (.obj [("update_id", .num 9),
      ("my_chat_member", .obj [
        ("new_chat_member", .obj [("status", .str "creator")]),
        ("chat", .obj [("id", .num 5)])]),
      ("chat_join_request", .obj [("chat", .obj [("id", .num 7)])]),
      ("message", .obj [("chat", .obj [("id", .num 8)])])]) =
      .ok ("tgms_register_group", some (.num 5)) ∧
    classify_main_tgms (.obj [("update_id", .num 9),
      ("my_chat_member", .obj [
        ("new_chat_member", .obj [("status", .str "creator")]),
        ("chat", .obj [("id", .num 5)])]),
      ("chat_join_request", .obj [("chat", .obj [("id", .num 7)])]),
      ("message", .obj [("chat", .obj [("id", .num 8)])])]) =
      .ok "tgms_register_group" :=
  claim_C2 _ (.obj [("new_chat_member", .obj [("status", .str "creator")]),
      ("chat", .obj [("id", .num 5)])])
    (.obj [("status", .str "creator")]) (some (.str "creator"))
    (some (.num 5)) rfl rfl rfl rfl

/-- C7: a well-formed body containing none of the recognized markers
(my_chat_member, chat_join_request, message, callback_query) classifies
successfully as a generic tgms_process_update with empty chat context on
the TGMS gateway, and webhook.py `_handle_tgms_update` agrees on the job
type; classification never fails on such bodies. -/
theorem claim_C7 (j : Json)
    (h1 : j.hasKey "my_chat_member" = false)
    (h2 : j.hasKey "chat_join_request" = false)
    (h3 : j.hasKey "message" = false)
    (_h4 : j.hasKey "callback_query" = false) :
    classifyTgms j = .ok ("tgms_process_update", none) ∧
    classify_main_tgms j = .ok "tgms_process_update" := by
  constructor
  · rw [classifyTgms]; rw [h1, h2, h3]; rfl
  · rw [classify_main_tgms]; rw [h1, h2]; rfl

/-- C7 witness: a body whose only keys are update_id and edited_message
(an unrecognized shape) classifies as a generic update with no chat
context. -/
theorem claim_C7_witness :
    classifyTgms (.obj [("update_id", .num 1), ("edited_message", .obj [])])
      = .ok ("tgms_process_update", none) ∧
    classify_main_tgms
        (.obj [("update_id", .num 1), ("edited_message", .obj [])])
      = .ok "tgms_process_update" :=
  claim_C7 _ rfl rfl rfl rfl

/-- C8: when the typing side channel is dispatched (httpx importable,
token configured, chat id truthy), webhook_tgms.py `send_typing_action`
emits a bounded, terminating sequence of attempts: at most
duration / 4 + 1 of them, all within the fixed total duration, each
successive pair separated by at least the fixed 4-unit sleep, stopping
immediately after the first failed attempt; at the deployed duration of 5
units at most 2 attempts are made. -/
theorem claim_C8 (tok : String) (cid : Json) (d : Nat)
    (lat : Nat → Nat) (ok : Nat → Bool)
    (ht : (tok == "") = false) (hc : cid.truthy = true) :
    (send_typing_action true tok cid d lat ok).length ≤ d / 4 + 1 ∧
    List.Chain' (fun a b => a + 4 ≤ b)
      (send_typing_action true tok cid d lat ok) ∧
    (∀ t ∈ send_typing_action true tok cid d lat ok, t < d) ∧
    (∀ j, ok j = false →
      (send_typing_action true tok cid d lat ok).length ≤ j + 1) ∧
    (send_typing_action true tok cid 5 lat ok).length ≤ 2 := by
  have hred : send_typing_action true tok cid d lat ok
      = typingLoop d lat ok 0 0 := by
    rw [send_typing_action]
    simp [ht, hc]
  have hred5 : send_typing_action true tok cid 5 lat ok
      = typingLoop 5 lat ok 0 0 := by
    rw [send_typing_action]
    simp [ht, hc]
  refine ⟨?_, ?_, ?_, ?_, ?_⟩
  · rw [hred]
    have := typingLoop_length_le d lat ok 0 0
    omega
  · rw [hred]
    exact typingLoop_chain d lat ok 0 0
  · rw [hred]
    exact typingLoop_mem_lt d lat ok 0 0
  · intro j hj
    rw [hred]
    have := typingLoop_early_stop d lat ok 0 0 j (Nat.zero_le _) hj
    omega
  · rw [hred5]
    have := typingLoop_length_le 5 lat ok 0 0
    omega

/-- C8 witness: for a configured token and chat id 7 with duration 5, the
attempt-count bound holds. -/
theorem claim_C8_witness :
    (send_typing_action true "T" (Json.num 7) 5
      (fun _ => 0) (fun _ => true)).length ≤ 5 / 4 + 1 :=
  (claim_C8 "T" (Json.num 7) 5 (fun _ => 0) (fun _ => true)
    (by decide) (by decide)).1

theorem handle_main_update_net_eq (env : Env) (j : Json) (db : DbOutcome)
    (net net' : Nat → Bool) (now : Nat) (store : List Job) :
    (handle_main_update env j db net now store).status
      = (handle_main_update env j db net' now store).status ∧
    (handle_main_update env j db net now store).msg
      = (handle_main_update env j db net' now store).msg ∧
    (handle_main_update env j db net now store).store
      = (handle_main_update env j db net' now store).store := by
  rcases db with ⟨c, i, k⟩
  cases hjo : j.getOpt "update_id" with
  | error e => simp [handle_main_update, hjo]
  | ok o =>
    cases hj : j.hasKey "chat_join_request" <;>
    cases c <;> cases i <;> cases k <;>
    cases ht : env.tgmsToken == "" <;>
    cases hb : env.botToken == "" <;>
    simp [handle_main_update, hjo, hj, ht, hb]

/-- C6: failures of the immediate responder never reach the request path.
For every environment, body and store outcome, the HTTP status code, the
response message and the resulting store of the main gateway are identical
under any two outcomes of the responder's outbound calls; the responder
only changes which side-channel calls were attempted. -/
theorem claim_C6 (env : Env) (tgmsPath : Bool) (body : Option Json)
    (db : DbOutcome) (net net' : Nat → Bool) (now : Nat) (store : List Job) :
    (handle_webhook env tgmsPath body db net now store).status
      = (handle_webhook env tgmsPath body db net' now store).status ∧
    (handle_webhook env tgmsPath body db net now store).msg
      = (handle_webhook env tgmsPath body db net' now store).msg ∧
    (handle_webhook env tgmsPath body db net now store).store
      = (handle_webhook env tgmsPath body db net' now store).store := by
  cases hh : health_ok env
  · simp [handle_webhook, hh]
  · cases he : env.engine
    · simp [handle_webhook, hh, he]
    · cases body with
      | none => simp [handle_webhook, hh, he]
      | some j =>
        cases hg : j.truthy
        · simp [handle_webhook, hh, he, hg]
        · cases hpc : pyContains "update_id" j with
          | error e => simp [handle_webhook, hh, he, hg, hpc]
          | ok b =>
            cases b
            · simp [handle_webhook, hh, he, hg, hpc]
            · cases tgmsPath
              · simp only [handle_webhook, hh, he, hg, hpc, Bool.not_false,
                  Bool.not_true, if_true, if_false, Bool.false_eq_true]
                exact handle_main_update_net_eq env j db net net' now store
              · simp [handle_webhook, hh, he, hg, hpc]


theorem handle_main_update_store (env : Env) (j : Json) (db : DbOutcome)
    (net : Nat → Bool) (now : Nat) (store : List Job) :
    (handle_main_update env j db net now store).store = store ∨
      ∃ jt tok, (handle_main_update env j db net now store).store
        = store ++ [mkJob jt tok j now] := by
  rcases db with ⟨c, i, k⟩
  cases hjo : j.getOpt "update_id" with
  | error e => left; simp [handle_main_update, hjo]
  | ok o =>
    cases hj : j.hasKey "chat_join_request" <;>
    cases c <;> cases i <;> cases k <;>
    cases ht : env.tgmsToken == "" <;>
    cases hb : env.botToken == "" <;>
    first
      | (left; simp [handle_main_update, hjo, hj, ht, hb]; done)
      | (right; simp [handle_main_update, hjo, hj, ht, hb]; exact ⟨_, _, rfl⟩)

theorem handle_main_update_store_fail (env : Env) (j : Json) (db : DbOutcome)
    (net : Nat → Bool) (now : Nat) (store : List Job)
    (h : db.insertOk = false ∨ db.commitOk = false) :
    (handle_main_update env j db net now store).store = store := by
  rcases db with ⟨c, i, k⟩
  simp only at h
  cases hjo : j.getOpt "update_id" with
  | error e => simp [handle_main_update, hjo]
  | ok o =>
    cases hj : j.hasKey "chat_join_request" <;>
    cases ht : env.tgmsToken == "" <;>
    cases hb : env.botToken == "" <;>
    cases c <;> cases i <;> cases k <;>
    simp_all [handle_main_update, hjo]

theorem handle_tgms_update_store (env : Env) (j : Json) (db : DbOutcome)
    (now : Nat) (store : List Job) :
    (handle_tgms_update env j db now store).store = store ∨
      ∃ jt, (handle_tgms_update env j db now store).store
        = store ++ [mkJob jt env.tgmsToken j now] := by
  rcases db with ⟨c, i, k⟩
  cases hjo : j.getOpt "update_id" with
  | error e => left; simp [handle_tgms_update, hjo]
  | ok o =>
    cases hcl : classify_main_tgms j with
    | error e =>
      left
      cases c <;> simp [handle_tgms_update, hjo, hcl]
    | ok jt =>
      cases ht : env.tgmsToken == "" <;>
      cases c <;> cases i <;> cases k <;>
      first
        | (left; simp [handle_tgms_update, hjo, hcl, ht]; done)
        | (right; simp [handle_tgms_update, hjo, hcl, ht]; exact ⟨_, rfl⟩)

theorem handle_tgms_update_store_fail (env : Env) (j : Json) (db : DbOutcome)
    (now : Nat) (store : List Job)
    (h : db.insertOk = false ∨ db.commitOk = false) :
    (handle_tgms_update env j db now store).store = store := by
  rcases db with ⟨c, i, k⟩
  simp only at h
  cases hjo : j.getOpt "update_id" with
  | error e => simp [handle_tgms_update, hjo]
  | ok o =>
    cases hcl : classify_main_tgms j with
    | error e => cases c <;> simp [handle_tgms_update, hjo, hcl]
    | ok jt =>
      cases ht : env.tgmsToken == "" <;>
      cases c <;> cases i <;> cases k <;>
      simp_all [handle_tgms_update, hjo, hcl]

theorem webhook_tgms_store (env : Env) (body : Option Json) (db : DbOutcome)
    (now : Nat) (store : List Job) :
    (webhook_tgms env body db now store).store = store ∨
      ∃ jt p, (webhook_tgms env body db now store).store
        = store ++ [mkJob jt env.tgmsToken p now] := by
  rcases db with ⟨c, i, k⟩
  cases he : env.engine
  · left; simp [webhook_tgms, he]
  · cases body with
    | none => left; simp [webhook_tgms, he]
    | some j =>
      cases hg : j.truthy
      · left; simp [webhook_tgms, he, hg]
      · cases hjo : j.getOpt "update_id" with
        | error e => left; simp [webhook_tgms, he, hg, hjo]
        | ok o =>
          cases ht : env.tgmsToken == ""
          · cases hcl : classifyTgms j with
            | error e => left; simp [webhook_tgms, he, hg, hjo, ht, hcl]
            | ok pr =>
              obtain ⟨jt, cid⟩ := pr
              cases c <;> cases i <;> cases k <;>
              first
                | (left; simp [webhook_tgms, he, hg, hjo, ht, hcl]; done)
                | (right; simp [webhook_tgms, he, hg, hjo, ht, hcl];
                    exact ⟨_, _, rfl⟩)
          · left; simp [webhook_tgms, he, hg, hjo, ht]

theorem webhook_tgms_store_fail (env : Env) (body : Option Json)
    (db : DbOutcome) (now : Nat) (store : List Job)
    (h : db.insertOk = false ∨ db.commitOk = false) :
    (webhook_tgms env body db now store).store = store := by
  rcases db with ⟨c, i, k⟩
  simp only at h
  cases he : env.engine
  · simp [webhook_tgms, he]
  · cases body with
    | none => simp [webhook_tgms, he]
    | some j =>
      cases hg : j.truthy
      · simp [webhook_tgms, he, hg]
      · cases hjo : j.getOpt "update_id" with
        | error e => simp [webhook_tgms, he, hg, hjo]
        | ok o =>
          cases ht : env.tgmsToken == ""
          · cases hcl : classifyTgms j with
            | error e => simp [webhook_tgms, he, hg, hjo, ht, hcl]
            | ok pr =>
              obtain ⟨jt, cid⟩ := pr
              cases c <;> cases i <;> cases k <;>
              simp_all [webhook_tgms, he, hg, hjo, ht, hcl]
          · simp [webhook_tgms, he, hg, hjo, ht]



/-- Store delta of one request: either unchanged, or exactly one appended
row with status pending and both timestamps set to the request time. -/
def AtomicDelta (store store' : List Job) (now : Nat) : Prop :=
  store' = store ∨ ∃ jt tok p,
    store' = store ++ [⟨jt, tok, p, "pending", now, now⟩]

theorem handle_webhook_store_delta (env : Env) (tgmsPath : Bool)
    (body : Option Json) (db : DbOutcome) (net : Nat → Bool) (now : Nat)
    (store : List Job) :
    AtomicDelta store (handle_webhook env tgmsPath body db net now store).store
      now := by
  cases hh : health_ok env
  · left; simp [handle_webhook, hh]
  · cases he : env.engine
    · left; simp [handle_webhook, hh, he]
    · cases body with
      | none => left; simp [handle_webhook, hh, he]
      | some j =>
        cases hg : j.truthy
        · left; simp [handle_webhook, hh, he, hg]
        · cases hpc : pyContains "update_id" j with
          | error e => left; simp [handle_webhook, hh, he, hg, hpc]
          | ok b =>
            cases b
            · left; simp [handle_webhook, hh, he, hg, hpc]
            · cases tgmsPath
              · have hred : handle_webhook env false (some j) db net now store
                    = handle_main_update env j db net now store := by
                  simp [handle_webhook, hh, he, hg, hpc]
                rw [hred]
                rcases handle_main_update_store env j db net now store with
                  h | ⟨jt, tok, h⟩
                · exact Or.inl h
                · exact Or.inr ⟨jt, tok, j, h⟩
              · have hred : handle_webhook env true (some j) db net now store
                    = handle_tgms_update env j db now store := by
                  simp [handle_webhook, hh, he, hg, hpc]
                rw [hred]
                rcases handle_tgms_update_store env j db now store with
                  h | ⟨jt, h⟩
                · exact Or.inl h
                · exact Or.inr ⟨jt, env.tgmsToken, j, h⟩

theorem handle_webhook_store_fail (env : Env) (tgmsPath : Bool)
    (body : Option Json) (db : DbOutcome) (net : Nat → Bool) (now : Nat)
    (store : List Job) (h : db.insertOk = false ∨ db.commitOk = false) :
    (handle_webhook env tgmsPath body db net now store).store = store := by
  cases hh : health_ok env
  · simp [handle_webhook, hh]
  · cases he : env.engine
    · simp [handle_webhook, hh, he]
    · cases body with
      | none => simp [handle_webhook, hh, he]
      | some j =>
        cases hg : j.truthy
        · simp [handle_webhook, hh, he, hg]
        · cases hpc : pyContains "update_id" j with
          | error e => simp [handle_webhook, hh, he, hg, hpc]
          | ok b =>
            cases b
            · simp [handle_webhook, hh, he, hg, hpc]
            · cases tgmsPath
              · have hred : handle_webhook env false (some j) db net now store
                    = handle_main_update env j db net now store := by
                  simp [handle_webhook, hh, he, hg, hpc]
                rw [hred]
                exact handle_main_update_store_fail env j db net now store h
              · have hred : handle_webhook env true (some j) db net now store
                    = handle_tgms_update env j db now store := by
                  simp [handle_webhook, hh, he, hg, hpc]
                rw [hred]
                exact handle_tgms_update_store_fail env j db now store h

/-- C1: enqueue is atomic on both gateways. For every request, the store
visible to other connections afterwards is either unchanged or extended by
exactly one Job row with status pending and both timestamps set to the
request time; and whenever the insert or the commit fails — in particular
a simulated failure after the row write but before commit — the store is
left unchanged (zero new visible rows). -/
theorem claim_C1 (env : Env) (tgmsPath : Bool) (body : Option Json)
    (db : DbOutcome) (net : Nat → Bool) (now : Nat) (store : List Job) :
    AtomicDelta store (handle_webhook env tgmsPath body db net now store).store
      now ∧
    (db.insertOk = false ∨ db.commitOk = false →
      (handle_webhook env tgmsPath body db net now store).store = store) ∧
    AtomicDelta store (webhook_tgms env body db now store).store now ∧
    (db.insertOk = false ∨ db.commitOk = false →
      (webhook_tgms env body db now store).store = store) := by
  refine ⟨handle_webhook_store_delta env tgmsPath body db net now store,
    fun h => handle_webhook_store_fail env tgmsPath body db net now store h,
    ?_, fun h => webhook_tgms_store_fail env body db now store h⟩
  rcases webhook_tgms_store env body db now store with h | ⟨jt, p, h⟩
  · exact Or.inl h
  · exact Or.inr ⟨jt, env.tgmsToken, p, h⟩

/-- C1 witness: with a healthy environment and a valid body, a simulated
failure after the row write but before commit leaves zero visible Job rows
on both gateways. -/
theorem claim_C1_witness :
    (handle_webhook ⟨true, true, "B", "T", "A", true, "S"⟩ false
      (some (.obj [("update_id", .num 1)])) ⟨true, true, false⟩
      (fun _ => true) 7 []).store = [] ∧
    (webhook_tgms ⟨true, true, "B", "T", "A", true, "S"⟩
      (some (.obj [("update_id", .num 1)])) ⟨true, true, false⟩ 7 []).store
      = [] :=
  ⟨(claim_C1 ⟨true, true, "B", "T", "A", true, "S"⟩ false
      (some (.obj [("update_id", .num 1)])) ⟨true, true, false⟩
      (fun _ => true) 7 []).2.1 (Or.inr rfl),
   (claim_C1 ⟨true, true, "B", "T", "A", true, "S"⟩ false
      (some (.obj [("update_id", .num 1)])) ⟨true, true, false⟩
      (fun _ => true) 7 []).2.2.2 (Or.inr rfl)⟩


/-- C3 counterexample: on the swap gateway a POST whose body is the
non-empty object with single key foo — hence missing update_id — is not
rejected with 400: it is accepted with 200 and one Job row is created. -/
theorem claim_C3_cex :
    (webhook_swap ⟨true, true, "B", "T", "A", true, "S"⟩
      (some (.obj [("foo", .num 1)])) ⟨true, true, true⟩ 3 []).status
      = 200 ∧
    (webhook_swap ⟨true, true, "B", "T", "A", true, "S"⟩
      (some (.obj [("foo", .num 1)])) ⟨true, true, true⟩ 3 []).store
      = [mkJob "process_telegram_update" "S" (.obj [("foo", .num 1)]) 3] :=
  ⟨rfl, rfl⟩

/-- C3 (amended): on the main gateway (webhook.py), every POST whose body
is unparsable, falsy (such as the empty object), or a JSON object missing
the update_id key is rejected with HTTP 400 before classification runs:
the store is unchanged, no responder call is attempted and no transaction
is begun. The swap gateway does not enforce the update_id check. -/
theorem claim_C3 (env : Env) (tgmsPath : Bool) (body : Option Json)
    (db : DbOutcome) (net : Nat → Bool) (now : Nat) (store : List Job)
    (hok : health_ok env = true)
    (hbad : body = none ∨ ∃ j, body = some j ∧
      (j.truthy = false ∨ ∃ fs, j = .obj fs ∧
        lookupKey "update_id" fs = none)) :
    (handle_webhook env tgmsPath body db net now store).status = 400 ∧
    (handle_webhook env tgmsPath body db net now store).store = store ∧
    (handle_webhook env tgmsPath body db net now store).actions = [] ∧
    (handle_webhook env tgmsPath body db net now store).txnBegun = false := by
  have he : env.engine = true := by
    have h2 := hok
    simp [health_ok, Bool.and_eq_true] at h2
    exact h2.1.1.1.1.1
  rcases hbad with rfl | ⟨j, rfl, hj⟩
  · simp [handle_webhook, hok, he]
  · rcases hj with hf | ⟨fs, rfl, hlk⟩
    · simp [handle_webhook, hok, he, hf]
    · have hpc : pyContains "update_id" (.obj fs) = .ok false := by
        simp [pyContains, hlk]
      cases hg : (Json.obj fs).truthy
      · simp [handle_webhook, hok, he, hg]
      · simp [handle_webhook, hok, he, hg, hpc]

/-- C3 witness: POST of the empty object to a healthy main gateway yields
400 and zero Job rows. -/
theorem claim_C3_witness :
    (handle_webhook ⟨true, true, "B", "T", "A", true, "S"⟩ false
      (some (.obj [])) ⟨true, true, true⟩ (fun _ => true) 0 []).status
      = 400 ∧
    (handle_webhook ⟨true, true, "B", "T", "A", true, "S"⟩ false
      (some (.obj [])) ⟨true, true, true⟩ (fun _ => true) 0 []).store
      = [] := by
  have h := claim_C3 ⟨true, true, "B", "T", "A", true, "S"⟩ false
    (some (.obj [])) ⟨true, true, true⟩ (fun _ => true) 0 [] rfl
    (Or.inr ⟨_, rfl, Or.inl rfl⟩)
  exact ⟨h.1, h.2.1⟩

/-- C4 counterexample: on the main gateway with BOT_TOKEN unset and every
other credential configured, a valid generic body resolves to the missing
main-bot credential — yet the request is answered 503 (service
unavailable, by the readiness gate) rather than failing in enqueue with
the missing-credential configuration error the claim describes. -/
theorem claim_C4_cex :
    (handle_webhook ⟨true, true, "", "T", "A", true, "S"⟩ false
      (some (.obj [("update_id", .num 1)])) ⟨true, true, true⟩
      (fun _ => true) 0 []).status = 503 ∧
    (handle_webhook ⟨true, true, "", "T", "A", true, "S"⟩ false
      (some (.obj [("update_id", .num 1)])) ⟨true, true, true⟩
      (fun _ => true) 0 []).txnBegun = false :=
  ⟨rfl, rfl⟩

/-- C4 (amended): a request whose resolved job kind has no configured
credential never begins a storage transaction and creates no Job row. On
the standalone TGMS gateway the token check runs before any transaction
and fails the request with 500 (missing credential); on the main gateway
the readiness gate already rejects any request with a missing bot
credential with 503, so the in-transaction credential check there never
fires. -/
theorem claim_C4 :
    (∀ env body db now store, env.tgmsToken = "" →
      (webhook_tgms env body db now store).txnBegun = false ∧
      (webhook_tgms env body db now store).store = store) ∧
    (∀ env fs db now store, env.engine = true → env.tgmsToken = "" →
      fs ≠ [] →
      (webhook_tgms env (some (.obj fs)) db now store).status = 500) ∧
    (∀ env tgmsPath body db net now store,
      env.botToken = "" ∨ env.tgmsToken = "" →
      (handle_webhook env tgmsPath body db net now store).status = 503 ∧
      (handle_webhook env tgmsPath body db net now store).txnBegun
        = false ∧
      (handle_webhook env tgmsPath body db net now store).store
        = store) := by
  refine ⟨?_, ?_, ?_⟩
  · intro env body db now store h
    exact ⟨(webhook_tgms_no_token env body db now store h).1,
      (webhook_tgms_no_token env body db now store h).2.1⟩
  · intro env fs db now store he h hfs
    have ht : (env.tgmsToken == "") = true := by simp [h]
    have hg : (Json.obj fs).truthy = true := by simp [Json.truthy, hfs]
    simp [webhook_tgms, he, hg, ht, Json.getOpt]
  · intro env tgmsPath body db net now store h
    have hok : health_ok env = false := by
      rcases h with h | h <;> simp [health_ok, h]
    simp [handle_webhook, hok]

/-- C4 witness: with the TGMS token unset, the standalone gateway fails a
valid request with 500 and never begins a transaction; with the main bot
token unset, the main gateway rejects with 503 before any transaction. -/
theorem claim_C4_witness :
    (webhook_tgms ⟨true, true, "B", "", "A", true, "S"⟩
      (some (.obj [("update_id", .num 1)])) ⟨true, true, true⟩ 0
      []).txnBegun = false ∧
    (webhook_tgms ⟨true, true, "B", "", "A", true, "S"⟩
      (some (.obj [("update_id", .num 1)])) ⟨true, true, true⟩ 0
      []).status = 500 ∧
    (handle_webhook ⟨true, true, "H", "", "A", true, "S"⟩ false
      (some (.obj [("update_id", .num 1)])) ⟨true, true, true⟩
      (fun _ => true) 0 []).status = 503 :=
  ⟨(claim_C4.1 _ _ _ _ _ rfl).1,
   claim_C4.2.1 _ [("update_id", .num 1)] _ _ _ rfl rfl (by simp),
   (claim_C4.2.2 _ _ _ _ _ _ _ (Or.inr rfl)).1⟩

/-- C5 counterexample: the standalone TGMS gateway with its credential
unavailable (store up) answers a valid body with 500, not with a
service-unavailable 503 result as the claim requires for a gateway whose
required credentials are unavailable. -/
theorem claim_C5_cex :
    (webhook_tgms ⟨true, true, "B", "", "A", true, "S"⟩
      (some (.obj [("update_id", .num 2)])) ⟨true, true, true⟩ 0
      []).status = 500 :=
  rfl

/-- C5 (amended): a gateway that is not ready performs no further work.
When the main gateway's readiness gate fails (store or any required
credential unavailable) it answers exactly 503 with no job, no responder
call and no transaction; the standalone TGMS and swap gateways answer 503
when the store is unavailable; and a missing TGMS credential, though
answered 500 rather than 503, still creates no Job row, dispatches no
typing signal and begins no transaction. -/
theorem claim_C5 :
    (∀ env tgmsPath body db net now store, health_ok env = false →
      handle_webhook env tgmsPath body db net now store =
        ⟨503, "Service temporarily unavailable", store, [], false⟩) ∧
    (∀ env body db now store, env.engine = false →
      webhook_tgms env body db now store = ⟨503, store, none, false⟩) ∧
    (∀ env body db now store, env.engine = false →
      webhook_swap env body db now store = ⟨503, store⟩) ∧
    (∀ env body db now store, env.tgmsToken = "" →
      (webhook_tgms env body db now store).store = store ∧
      (webhook_tgms env body db now store).typing = none ∧
      (webhook_tgms env body db now store).txnBegun = false) := by
  refine ⟨?_, ?_, ?_, ?_⟩
  · intro env tgmsPath body db net now store h
    simp [handle_webhook, h]
  · intro env body db now store h
    simp [webhook_tgms, h]
  · intro env body db now store h
    simp [webhook_swap, h]
  · intro env body db now store h
    obtain ⟨h1, h2, h3⟩ := webhook_tgms_no_token env body db now store h
    exact ⟨h2, h3, h1⟩

/-- C5 witness: with the engine missing, an otherwise valid request to the
main gateway returns exactly the 503 result with empty store, no actions
and no transaction. -/
theorem claim_C5_witness :
    handle_webhook ⟨false, false, "B", "T", "A", true, "S"⟩ false
      (some (.obj [("update_id", .num 1)])) ⟨true, true, true⟩
      (fun _ => true) 0 []
      = ⟨503, "Service temporarily unavailable", [], [], false⟩ :=
  claim_C5.1 _ _ _ _ _ _ _ rfl

/-- C9 counterexample: a POST whose body parses to the non-empty JSON
array with one element is a non-empty JSON value, yet the swap gateway
answers 500 (the AttributeError from calling .get on a list) and creates
no Job row, contradicting the claim for non-object values. -/
theorem claim_C9_cex :
    (webhook_swap ⟨true, true, "B", "T", "A", true, "S"⟩
      (some (.arr [.num 1])) ⟨true, true, true⟩ 0 []).status = 500 ∧
    (webhook_swap ⟨true, true, "B", "T", "A", true, "S"⟩
      (some (.arr [.num 1])) ⟨true, true, true⟩ 0 []).store = [] :=
  ⟨rfl, rfl⟩

/-- C9 (amended): on the swap gateway, when the store is available and the
insert commits, every POST whose body parses to a non-empty JSON object —
including objects missing update_id and regardless of which shape markers
are present — is accepted with HTTP 200 and enqueued as exactly one Job of
kind process_telegram_update carrying SWAP_BOT_TOKEN; classification on
this path is a constant function of the body. Non-object bodies instead
fail with 500 and no Job. -/
theorem claim_C9 (env : Env) (fs : List (String × Json)) (db : DbOutcome)
    (now : Nat) (store : List Job)
    (he : env.engine = true) (hfs : fs ≠ [])
    (hc : db.connectOk = true) (hi : db.insertOk = true)
    (hk : db.commitOk = true) :
    webhook_swap env (some (.obj fs)) db now store =
      ⟨200, store ++ [mkJob "process_telegram_update" env.swapToken
        (.obj fs) now]⟩ := by
  have hg : (Json.obj fs).truthy = true := by simp [Json.truthy, hfs]
  rcases db with ⟨c, i, k⟩
  simp only at hc hi hk
  subst hc; subst hi; subst hk
  simp [webhook_swap, he, hg, Json.getOpt]

/-- C9 witness: a non-empty object missing update_id is enqueued with 200
as one process_telegram_update job carrying the swap token. -/
theorem claim_C9_witness :
    webhook_swap ⟨true, true, "B", "T", "A", true, "S"⟩
      (some (.obj [("foo", .num 1)])) ⟨true, true, true⟩ 3 []
      = ⟨200, [mkJob "process_telegram_update" "S"
          (.obj [("foo", .num 1)]) 3]⟩ :=
  claim_C9 _ [("foo", .num 1)] _ 3 [] rfl (by simp) rfl rfl rfl

/-- C10: on the standalone TGMS gateway, membership-change and
join-request events also capture the nested chat identifier (from
my_chat_member.chat.id and chat_join_request.chat.id respectively) and,
when a usable (truthy) identifier is present, the typing side channel is
dispatched for exactly that chat — not only for callback and message
events. -/
theorem claim_C10 :
    (∀ env fs (v w : Json) (s : Option Json) (cid : Json) db now store,
      env.engine = true → (env.tgmsToken == "") = false →
      lookupKey "my_chat_member" fs = some v →
      v.getD "new_chat_member" (.obj []) = .ok w →
      w.getOpt "status" = .ok s →
      getChatId v = .ok (some cid) → cid.truthy = true →
      (webhook_tgms env (some (.obj fs)) db now store).typing = some cid) ∧
    (∀ env fs (v : Json) (cid : Json) db now store,
      env.engine = true → (env.tgmsToken == "") = false →
      (Json.obj fs).hasKey "my_chat_member" = false →
      lookupKey "chat_join_request" fs = some v →
      getChatId v = .ok (some cid) → cid.truthy = true →
      (webhook_tgms env (some (.obj fs)) db now store).typing
        = some cid) := by
  constructor
  · intro env fs v w s cid db now store he ht hv hw hs hc hcid
    have hcl := (classifyTgms_member fs v w s (some cid) hv hw hs hc).1
    exact webhook_tgms_typing env fs db now store _ cid he ht
      (lookupKey_ne_nil hv) hcl hcid
  · intro env fs v cid db now store he ht hnk hv hc hcid
    have hcl := classifyTgms_join fs v (some cid) hnk hv hc
    exact webhook_tgms_typing env fs db now store _ cid he ht
      (lookupKey_ne_nil hv) hcl hcid

/-- C10 witness: a non-admin membership change for chat 42 and a join
request for chat 7 both dispatch the typing signal for their chat. -/
theorem claim_C10_witness :
    (webhook_tgms ⟨true, true, "B", "T", "A", true, "S"⟩
      (some (.obj [("update_id", .num 1),
        ("my_chat_member", .obj [
          ("new_chat_member", .obj [("status", .str "member")]),
          ("chat", .obj [("id", .num 42)])])]))
      ⟨true, true, true⟩ 0 []).typing = some (.num 42) ∧
    (webhook_tgms ⟨true, true, "B", "T", "A", true, "S"⟩
      (some (.obj [("update_id", .num 2),
        ("chat_join_request", .obj [("chat", .obj [("id", .num 7)])])]))
      ⟨true, true, true⟩ 0 []).typing = some (.num 7) :=
  ⟨claim_C10.1 _ _ (.obj [("new_chat_member", .obj [("status",
        .str "member")]), ("chat", .obj [("id", .num 42)])])
      (.obj [("status", .str "member")]) (some (.str "member"))
      (.num 42) _ 0 [] rfl rfl rfl rfl rfl rfl (by decide),
   claim_C10.2 _ _ (.obj [("chat", .obj [("id", .num 7)])]) (.num 7)
      _ 0 [] rfl rfl rfl rfl rfl (by decide)⟩

end IgLive
